import Mathlib

/-!
A shallow embedding of the feedly developer client (`src/index.js`).

The client is a small OAuth-style session manager: a constructor that
normalises its options, a `request` dispatcher that refreshes the access
token on demand, a `refreshAuthToken` coordinator that exchanges the
refresh token for an access token, endpoint wrappers, and a `ratelimit`
getter reading the last response headers.

JavaScript values that flow through the client are modelled by a small
`Json` type; the asynchronous operations are modelled as pure functions
from a client state and a `World` (the behaviour of `fetch`) to a result
record carrying the new state, the dispatched fetch calls, the console
log entries and the resolved value.  Promise rejections that the source
catches and swallows are modelled by resolving with no value and
recording the log entry, exactly as the `catchError` helper does.
-/

set_option maxHeartbeats 1000000
set_option maxRecDepth 4000

namespace FeedlyClient

/-- JSON-style JavaScript values as used by the client.  Arrays are not
needed by any code path we embed, so they are omitted. -/
inductive Json where
  | null : Json
  | bool (b : Bool) : Json
  | num (n : Int) : Json
  | str (s : String) : Json
  | obj (fields : List (String × Json)) : Json

/-- JavaScript truthiness of a value, as used in `if (!x)` tests:
`null`, `false`, `0` and the empty string are falsy. -/
def Json.truthy : Json → Bool
  | .null => false
  | .bool b => b
  | .num n => n != 0
  | .str s => !s.isEmpty
  | .obj _ => true

/-- JavaScript string conversion, as used by string concatenation
(for instance in building the `Authorization` header value). -/
def Json.jsToString : Json → String
  | .null => "null"
  | .bool b => if b then "true" else "false"
  | .num n => toString n
  | .str s => s
  | .obj _ => "[object Object]"

/-- Field lookup on an object, `none` when the receiver is not an object
or the field is absent (JavaScript property access yielding `undefined`;
the `null` receiver case, which throws, is handled at each use site). -/
def Json.getField : Json → String → Option Json
  | .obj fs, k => (fs.find? (fun p => p.1 == k)).map (fun p => p.2)
  | _, _ => none

/-- JavaScript property assignment on an object field list: overwrite in
place when the key exists, append otherwise (insertion order preserved,
as object spread plus assignment does). -/
def setField (fs : List (String × Json)) (k : String) (v : Json) :
    List (String × Json) :=
  if fs.any (fun p => p.1 == k) then
    fs.map (fun p => if p.1 == k then (p.1, v) else p)
  else
    fs ++ [(k, v)]

/-- Whether `needle` occurs as a contiguous substring of `hay`. -/
def strOccurs (needle hay : String) : Bool :=
  let n := needle.toList
  let h := hay.toList
  (List.range (h.length + 1)).any (fun i => (h.drop i).take n.length == n)

mutual
/-- Whether the string `t` occurs inside a value: as a substring of a
string atom, or of a key or value of an object.  Used to state that a
token never appears in logged data. -/
def Json.mentions (t : String) : Json → Bool
  | .str s => strOccurs t s
  | .obj fs => Json.mentionsFields t fs
  | _ => false

/-- `Json.mentions` on an object field list. -/
def Json.mentionsFields (t : String) : List (String × Json) → Bool
  | [] => false
  | (k, v) :: rest =>
      strOccurs t k || Json.mentions t v || Json.mentionsFields t rest
end

/-- A JavaScript number that is either an integer or `NaN`
(the only shapes `parseInt(_, 10)` produces here). -/
inductive JsNumber where
  | nan : JsNumber
  | int (n : Int) : JsNumber
deriving Repr, DecidableEq

/-- Decimal digits to a natural number. -/
def digitsToNat (ds : List Char) : Nat :=
  ds.foldl (fun acc c => acc * 10 + (c.toNat - 48)) 0

/-- The sign character consumed by `parseInt`, if any. -/
def parseSign : List Char → Int × List Char
  | '-' :: rest => (-1, rest)
  | '+' :: rest => (1, rest)
  | cs => (1, cs)

/-- `parseInt(s, 10)`: skip leading whitespace, read an optional sign and
then the longest run of decimal digits; `NaN` when no digit is read. -/
def jsParseInt (s : String) : JsNumber :=
  let cs := s.toList.dropWhile
    (fun c => c == ' ' || c == '\t' || c == '\n' || c == '\r')
  let ds := (parseSign cs).2.takeWhile Char.isDigit
  if ds.isEmpty then .nan
  else .int ((parseSign cs).1 * (digitsToNat ds : Nat))

/-- `String.prototype.substring(start, end)`: both indices are clamped
into `[0, length]` and swapped when out of order.  In particular
`substring(-1)` returns the whole string and `substring(0, -1)` returns
the empty string, which is what makes the trailing-slash trim in the
constructor ineffective. -/
def jsSubstring (s : String) (start : Int) (stop : Option Int) : String :=
  let len : Int := s.length
  let clamp (i : Int) : Nat := (max 0 (min i len)).toNat
  let a := clamp start
  let b := match stop with
    | none => s.length
    | some e => clamp e
  let lo := min a b
  let hi := max a b
  ((s.toList.drop lo).take (hi - lo)).asString

/-- The caller-supplied `RequestInit` options object: each field is
`none` when the key is absent.  The body is carried as the JSON value
handed to `JSON.stringify` (stringification at the wire boundary is not
observable by any claim). -/
structure RequestInit where
  method : Option String := none
  headers : Option (List (String × String)) := none
  body : Option Json := none

/-- The second argument actually handed to `fetch`, after
`Object.assign({headers: ...}, options)` has merged in the default
header object. -/
structure MergedInit where
  method : Option String
  headers : List (String × String)
  body : Option Json

/-- `Object.assign({headers: {Authorization: "OAuth " + accessToken}}, options)`:
a top-level `headers` key in `options` replaces the default header object
wholesale (the merge is shallow), and `method` and `body` come from
`options` alone since the default object has no such keys. -/
def mergeInit (accessToken : Json) (options : RequestInit) : MergedInit :=
  { method := options.method
    headers := options.headers.getD
      [("Authorization", "OAuth " ++ accessToken.jsToString)]
    body := options.body }

/-- Case-sensitive lookup in a header list, `none` standing for the
`null` that `Headers.get` returns for an absent header. -/
def headersGet (hs : List (String × String)) (k : String) : Option String :=
  (hs.find? (fun p => p.1 == k)).map (fun p => p.2)

/-- A raw `fetch` response: its headers, and the outcome of
`response.json()` (`Except.error msg` models a body that fails to parse,
with `msg` the string form of the rejection). -/
structure Response where
  headers : List (String × String)
  jsonBody : Except String Json

/-- The outcome of one `fetch` call: a network-level rejection (with the
string form of the error), or a response. -/
inductive FetchOutcome where
  | networkError (msg : String) : FetchOutcome
  | ok (resp : Response) : FetchOutcome

/-- The behaviour of the network: what `fetch` does for a given url and
merged init. -/
def World : Type := String → MergedInit → FetchOutcome

/-- One dispatched `fetch` call: the full url and the merged init. -/
structure FetchCall where
  url : String
  init : MergedInit

/-- A console log entry: `console.error` of a message, or `console.info`
of a format string and an object argument (as in `logAuthBody`). -/
inductive LogEntry where
  | error (msg : String) : LogEntry
  | info (fmt : String) (arg : Json) : LogEntry

/-- The internal state of a client instance: the (merged, normalised)
options record and the last stored response. -/
structure FeedlyState where
  baseUrl : String
  accessToken : Json
  refreshToken : Json
  refreshTokenInstant : Bool
  lastResponse : Option Response

/-- The constructor argument: each field is `none` when the key is
absent, in which case `Object.assign` keeps the default. -/
structure FeedlyInit where
  baseUrl : Option String := none
  accessToken : Option Json := none
  refreshToken : Option Json := none
  refreshTokenInstant : Option Bool := none

/-- The constructor.  Merges the defaults with the supplied options,
then runs the (ineffective, see `jsSubstring`) trailing-slash trim, then
throws a `TypeError` when the refresh token is falsy.  The
`refreshTokenInstant` refresh is fired without being awaited and all its
errors are swallowed, so it cannot affect whether construction
succeeds; it is therefore not part of the construction result. -/
def construct (init : FeedlyInit) : Except String FeedlyState :=
  let baseUrl0 := init.baseUrl.getD "https://cloud.feedly.com"
  let accessToken := init.accessToken.getD .null
  let refreshToken := init.refreshToken.getD .null
  let refreshTokenInstant := init.refreshTokenInstant.getD false
  let baseUrl :=
    if jsSubstring baseUrl0 (-1) none == "/" then
      jsSubstring baseUrl0 0 (some (-1))
    else baseUrl0
  if !refreshToken.truthy then
    .error "TypeError: `refreshToken` is required!"
  else
    .ok { baseUrl := baseUrl
          accessToken := accessToken
          refreshToken := refreshToken
          refreshTokenInstant := refreshTokenInstant
          lastResponse := none }

/-- The result of awaiting one of the asynchronous operations: the new
client state, the fetch calls dispatched (in order), the console log
entries emitted (in order), and the value the promise resolved with
(`none` when it resolved with `undefined`, in particular after a caught
and swallowed error). -/
structure OpResult where
  state : FeedlyState
  calls : List FetchCall
  log : List LogEntry
  value : Option (Response × Json)

/-- The body of `request` after its refresh precondition: build the
merged init, `fetch(baseUrl + url, init)`, store the response into
`lastResponse` before any body parsing, parse the body into the
`{response, body}` shape, and catch any error along the way by logging
it with the `Failed to make call to <url>` prefix and resolving with
`undefined`. -/
def requestCore (w : World) (st : FeedlyState) (url : String)
    (options : RequestInit) : OpResult :=
  match w (st.baseUrl ++ url) (mergeInit st.accessToken options) with
  | .networkError msg =>
      { state := st
        calls := [⟨st.baseUrl ++ url, mergeInit st.accessToken options⟩]
        log := [.error ("Failed to make call to " ++ url ++ ": " ++ msg)]
        value := none }
  | .ok resp =>
      match resp.jsonBody with
      | .error msg =>
          { state := { st with lastResponse := some resp }
            calls := [⟨st.baseUrl ++ url, mergeInit st.accessToken options⟩]
            log := [.error ("Failed to make call to " ++ url ++ ": " ++ msg)]
            value := none }
      | .ok body =>
          { state := { st with lastResponse := some resp }
            calls := [⟨st.baseUrl ++ url, mergeInit st.accessToken options⟩]
            log := []
            value := some (resp, body) }

/-- String form of the `TypeError` raised when the success handler of
`refreshAuthToken` destructures the `undefined` that a swallowed
`request` failure resolves with. -/
def destructureErrMsg : String :=
  "TypeError: Cannot destructure properties of undefined"

/-- String form of the `TypeError` raised by `body.access_token.length`
when `access_token` is absent (or the body is not an object). -/
def lengthOfUndefinedErrMsg : String :=
  "TypeError: Cannot read properties of undefined"

/-- String form of the `TypeError` raised by `body.access_token.length`
when `access_token` is `null`, or by `body.access_token` when the body
itself is `null`. -/
def lengthOfNullErrMsg : String :=
  "TypeError: Cannot read properties of null"

/-- `Feedly.logAuthBody(body)`: copy the body, overwrite `access_token`
in the copy with `String[<length>]` (the `length` property is only
defined on strings; `body.access_token.length` throws when
`access_token` is `undefined` or `null`, and is `undefined` otherwise),
and `console.info` the redacted copy.  Returns the log entry, or the
thrown error. -/
def logAuthBody (body : Json) : Except String LogEntry :=
  match body with
  | .null => .error lengthOfNullErrMsg
  | .obj fs =>
      match (fs.find? (fun p => p.1 == "access_token")).map (fun p => p.2) with
      | none => .error lengthOfUndefinedErrMsg
      | some Json.null => .error lengthOfNullErrMsg
      | some v =>
          let placeholder :=
            match v with
            | .str s => "String[" ++ toString s.length ++ "]"
            | _ => "String[undefined]"
          .ok (.info "Refresh of tokens was successful: %o"
                (.obj (setField fs "access_token" (.str placeholder))))
  | _ => .error lengthOfUndefinedErrMsg

/-- The `RequestInit` that `refreshAuthToken` passes to `request`:
method POST, an explicit empty header object that forces the default
`Authorization` header out, and the stringified token-exchange body. -/
def refreshInit (st : FeedlyState) : RequestInit :=
  { method := some "POST"
    headers := some []
    body := some (.obj
      [("refresh_token", st.refreshToken),
       ("client_id", .str "feedlydev"),
       ("client_secret", .str "feedlydev"),
       ("grant_type", .str "refresh_token")]) }

/-- The `.then(...).catch(...)` continuation of `refreshAuthToken`,
applied to the awaited result of its inner `request` call.  When the
inner call was swallowed (`value = none`), destructuring `undefined`
throws and is caught with the `Failed to refresh token` prefix.  On a
value, the handler logs the redacted body and stores
`body.access_token` into the options; anything `logAuthBody` throws is
caught with the same prefix.  The handler returns the assignment
expression value, so the coordinator always resolves with
`undefined`. -/
def refreshFinish (out : OpResult) : OpResult :=
  match out.value with
  | none =>
      { out with
        log := out.log ++ [.error ("Failed to refresh token: " ++ destructureErrMsg)]
        value := none }
  | some (_resp, body) =>
      match logAuthBody body with
      | .error e =>
          { out with
            log := out.log ++ [.error ("Failed to refresh token: " ++ e)]
            value := none }
      | .ok entry =>
          { state := { out.state with
                        accessToken := (body.getField "access_token").getD .null }
            calls := out.calls
            log := out.log ++ [entry]
            value := none }

/-- `refreshAuthToken()`.  The source calls `this.request("/v3/auth/token", ...)`;
because the url is exactly the token-exchange path, the refresh
precondition inside `request` is false on that call, so it equals
`requestCore` (proved below as `request_on_token_url`). -/
def refreshAuthToken (w : World) (st : FeedlyState) : OpResult :=
  refreshFinish (requestCore w st "/v3/auth/token" (refreshInit st))

/-- `request(url, options)`: when no access token is held (falsy) and
the url is not the token-exchange path, await one full
`refreshAuthToken()` cycle first; then run the fetch pipeline
(`requestCore`) against the possibly-updated state. -/
def request (w : World) (st : FeedlyState) (url : String)
    (options : RequestInit := {}) : OpResult :=
  if !st.accessToken.truthy && url != "/v3/auth/token" then
    { state := (requestCore w (refreshAuthToken w st).state url options).state
      calls := (refreshAuthToken w st).calls ++
        (requestCore w (refreshAuthToken w st).state url options).calls
      log := (refreshAuthToken w st).log ++
        (requestCore w (refreshAuthToken w st).state url options).log
      value := (requestCore w (refreshAuthToken w st).state url options).value }
  else
    requestCore w st url options

/-- `profile()`. -/
def profile (w : World) (st : FeedlyState) : OpResult :=
  request w st "/v3/profile" {}

/-- `collections()`. -/
def collections (w : World) (st : FeedlyState) : OpResult :=
  request w st "/v3/collections" {}

/-- `subscriptions()`. -/
def subscriptions (w : World) (st : FeedlyState) : OpResult :=
  request w st "/v3/subscriptions" {}

/-- JavaScript object property assignment used by the stream options
spread: overwrite the key in place when present, append otherwise. -/
def setQueryField (fs : List (String × String)) (k v : String) :
    List (String × String) :=
  if fs.any (fun p => p.1 == k) then
    fs.map (fun p => if p.1 == k then (p.1, v) else p)
  else
    fs ++ [(k, v)]

/-- `querystring.stringify`, modelled as joining `key=value` pairs with
ampersands.  Percent-encoding is elided: no claim depends on the encoded
characters, only on which path the dispatcher is handed. -/
def qsStringify (ps : List (String × String)) : String :=
  String.intercalate "&" (ps.map (fun p => p.1 ++ "=" ++ p.2))

/-- `streams(streamId, options)`: requests
`/v3/streams/contents?` followed by the stringified options with
`streamId` spread in last. -/
def streams (w : World) (st : FeedlyState) (streamId : String)
    (options : List (String × String) := []) : OpResult :=
  request w st
    ("/v3/streams/contents?" ++ qsStringify (setQueryField options "streamId" streamId))
    {}

/-- The value of the `ratelimit` getter. -/
structure RateLimit where
  count : JsNumber
  reset : JsNumber
deriving Repr, DecidableEq

/-- `parseInt(headers.get(k), 10)`: `Headers.get` returns `null` for an
absent header, and `parseInt(null, 10)` coerces it to the string
`"null"`, giving `NaN`. -/
def rateHeaderValue (resp : Response) (k : String) : JsNumber :=
  match headersGet resp.headers k with
  | none => jsParseInt "null"
  | some v => jsParseInt v

/-- `get ratelimit()`: throws when no response has been stored yet;
otherwise parses the two rate-limit headers base 10. -/
def ratelimit (st : FeedlyState) : Except String RateLimit :=
  match st.lastResponse with
  | none => .error "Cannot get rate limits: There was no response yet"
  | some resp =>
      .ok { count := rateHeaderValue resp "X-Ratelimit-Count"
            reset := rateHeaderValue resp "X-Ratelimit-Reset" }

/-- Whether the string `s` starts with `pre` (spelled out over the
character list so that it evaluates by reduction). -/
def strStarts (pre s : String) : Bool :=
  s.toList.take pre.toList.length == pre.toList

/-- Whether a log entry is the refresh-boundary failure line
(`catchError` applied with the `Failed to refresh token` prefix). -/
def isRefreshFailureLog : LogEntry → Bool
  | .error m => strStarts "Failed to refresh token" m
  | .info _ _ => false

/-- Whether a string appears anywhere in a log entry: in an error
message, in an info format string, or inside the logged object. -/
def logEntryMentions (t : String) : LogEntry → Bool
  | .error m => strOccurs t m
  | .info fmt arg => strOccurs t fmt || Json.mentions t arg

/-! ### Concrete fixtures used to instantiate the theorems -/

/-- A fresh client state: default base url, no access token yet, a
refresh token supplied. -/
def exampleState : FeedlyState :=
  { baseUrl := "https://cloud.feedly.com"
    accessToken := .null
    refreshToken := .str "refresh-1"
    refreshTokenInstant := false
    lastResponse := none }

/-- A token-exchange response body carrying the access token of the
worked example. -/
def exampleAuthBody : Json :=
  .obj [("access_token", .str "abc123"), ("expires_in", .num 3600)]

/-- The token-exchange response of the worked example. -/
def exampleTokenResponse : Response :=
  { headers := [], jsonBody := .ok exampleAuthBody }

/-- An endpoint response carrying rate-limit headers. -/
def exampleProfileResponse : Response :=
  { headers := [("X-Ratelimit-Count", "200"), ("X-Ratelimit-Reset", "1700000000")]
    jsonBody := .ok (.obj [("id", .str "user-1")]) }

/-- A network in which the token exchange succeeds with
`exampleTokenResponse` and every other call succeeds with
`exampleProfileResponse`. -/
def exampleWorld : World := fun url _ =>
  if url = "https://cloud.feedly.com/v3/auth/token" then .ok exampleTokenResponse
  else .ok exampleProfileResponse

/-- A network in which every fetch rejects. -/
def failingWorld : World := fun _ _ =>
  .networkError "FetchError: network down"

/-- A network whose responses carry bodies that fail to parse as JSON. -/
def badJsonWorld : World := fun _ _ =>
  .ok { headers := [], jsonBody := .error "SyntaxError: Unexpected token" }

/-- A client state already holding an access token. -/
def tokenState : FeedlyState :=
  { exampleState with accessToken := .str "tok-1" }

/-- Caller options carrying their own header object, unrelated to
authorisation. -/
def exampleOverrideInit : RequestInit :=
  { headers := some [("Content-Type", "application/json")] }

/-! ## Basic lemmas about the fetch pipeline -/

/-- `requestCore` dispatches exactly one fetch call, against
`baseUrl + url`, with the merged init. -/
theorem requestCore_calls (w : World) (st : FeedlyState) (url : String)
    (o : RequestInit) :
    (requestCore w st url o).calls =
      [⟨st.baseUrl ++ url, mergeInit st.accessToken o⟩] := by
  unfold requestCore
  rcases w (st.baseUrl ++ url) (mergeInit st.accessToken o) with msg | ⟨hs, jb⟩
  · rfl
  · cases jb <;> rfl

/-- `requestCore` never touches the access token. -/
theorem requestCore_accessToken (w : World) (st : FeedlyState) (url : String)
    (o : RequestInit) :
    (requestCore w st url o).state.accessToken = st.accessToken := by
  unfold requestCore
  rcases w (st.baseUrl ++ url) (mergeInit st.accessToken o) with msg | ⟨hs, jb⟩
  · rfl
  · cases jb <;> rfl

/-- `requestCore` never touches the refresh token. -/
theorem requestCore_refreshToken (w : World) (st : FeedlyState) (url : String)
    (o : RequestInit) :
    (requestCore w st url o).state.refreshToken = st.refreshToken := by
  unfold requestCore
  rcases w (st.baseUrl ++ url) (mergeInit st.accessToken o) with msg | ⟨hs, jb⟩
  · rfl
  · cases jb <;> rfl

/-- `requestCore` never touches the base url. -/
theorem requestCore_baseUrl (w : World) (st : FeedlyState) (url : String)
    (o : RequestInit) :
    (requestCore w st url o).state.baseUrl = st.baseUrl := by
  unfold requestCore
  rcases w (st.baseUrl ++ url) (mergeInit st.accessToken o) with msg | ⟨hs, jb⟩
  · rfl
  · cases jb <;> rfl

/-- When `requestCore` resolves with a value, it emitted no log entry. -/
theorem requestCore_log_of_value (w : World) (st : FeedlyState) (url : String)
    (o : RequestInit) (resp : Response) (body : Json)
    (h : (requestCore w st url o).value = some (resp, body)) :
    (requestCore w st url o).log = [] := by
  unfold requestCore at h ⊢
  revert h
  rcases w (st.baseUrl ++ url) (mergeInit st.accessToken o) with msg | ⟨hs, jb⟩
  · exact fun h => Option.noConfusion h
  · cases jb
    · exact fun h => Option.noConfusion h
    · exact fun _ => rfl

/-- On the token-exchange url, `request` runs no refresh: it is exactly
the fetch pipeline (the precondition `url !== "/v3/auth/token"` is
false).  This is why the inner `this.request` call of
`refreshAuthToken` cannot recurse. -/
theorem request_on_token_url (w : World) (st : FeedlyState) (o : RequestInit) :
    request w st "/v3/auth/token" o = requestCore w st "/v3/auth/token" o := by
  unfold request
  simp

/-- With a truthy access token, `request` runs no refresh. -/
theorem request_of_truthy (w : World) (st : FeedlyState) (url : String)
    (o : RequestInit) (h : st.accessToken.truthy = true) :
    request w st url o = requestCore w st url o := by
  unfold request
  simp [h]

/-- With a falsy access token and a non-token url, `request` is one
refresh cycle followed by the fetch pipeline on the refreshed state. -/
theorem request_of_falsy (w : World) (st : FeedlyState) (url : String)
    (o : RequestInit) (h : st.accessToken.truthy = false)
    (hurl : url ≠ "/v3/auth/token") :
    request w st url o =
      { state := (requestCore w (refreshAuthToken w st).state url o).state
        calls := (refreshAuthToken w st).calls ++
          (requestCore w (refreshAuthToken w st).state url o).calls
        log := (refreshAuthToken w st).log ++
          (requestCore w (refreshAuthToken w st).state url o).log
        value := (requestCore w (refreshAuthToken w st).state url o).value } := by
  unfold request
  simp [h, hurl]

/-! ## Lemmas about the refresh coordinator -/

/-- When the inner call was swallowed, the refresh continuation leaves
the state alone and appends the refresh failure log line. -/
theorem refreshFinish_of_none (out : OpResult) (h : out.value = none) :
    refreshFinish out =
      { out with
        log := out.log ++ [.error ("Failed to refresh token: " ++ destructureErrMsg)]
        value := none } := by
  unfold refreshFinish
  rw [h]

/-- When the body made `logAuthBody` throw, the refresh continuation
leaves the state alone and appends the refresh failure log line. -/
theorem refreshFinish_of_logError (out : OpResult) (resp : Response)
    (body : Json) (e : String) (hv : out.value = some (resp, body))
    (hl : logAuthBody body = .error e) :
    refreshFinish out =
      { out with
        log := out.log ++ [.error ("Failed to refresh token: " ++ e)]
        value := none } := by
  unfold refreshFinish
  simp only [hv, hl]

/-- On a value whose body logs successfully, the refresh continuation
stores `body.access_token` and appends the info log entry. -/
theorem refreshFinish_of_ok (out : OpResult) (resp : Response)
    (body : Json) (entry : LogEntry) (hv : out.value = some (resp, body))
    (hl : logAuthBody body = .ok entry) :
    refreshFinish out =
      { state := { out.state with
                    accessToken := (body.getField "access_token").getD .null }
        calls := out.calls
        log := out.log ++ [entry]
        value := none } := by
  unfold refreshFinish
  simp only [hv, hl]

/-- The refresh continuation dispatches no fetch call of its own. -/
theorem refreshFinish_calls (out : OpResult) :
    (refreshFinish out).calls = out.calls := by
  rcases hv : out.value with _ | ⟨resp, body⟩
  · rw [refreshFinish_of_none out hv]
  · rcases hl : logAuthBody body with e | entry
    · rw [refreshFinish_of_logError out resp body e hv hl]
    · rw [refreshFinish_of_ok out resp body entry hv hl]

/-- The refresh coordinator always resolves with `undefined`. -/
theorem refreshFinish_value (out : OpResult) :
    (refreshFinish out).value = none := by
  rcases hv : out.value with _ | ⟨resp, body⟩
  · rw [refreshFinish_of_none out hv]
  · rcases hl : logAuthBody body with e | entry
    · rw [refreshFinish_of_logError out resp body e hv hl]
    · rw [refreshFinish_of_ok out resp body entry hv hl]

/-- The refresh continuation never touches the refresh token. -/
theorem refreshFinish_refreshToken (out : OpResult) :
    (refreshFinish out).state.refreshToken = out.state.refreshToken := by
  rcases hv : out.value with _ | ⟨resp, body⟩
  · rw [refreshFinish_of_none out hv]
  · rcases hl : logAuthBody body with e | entry
    · rw [refreshFinish_of_logError out resp body e hv hl]
    · rw [refreshFinish_of_ok out resp body entry hv hl]

/-- The refresh continuation never touches the base url. -/
theorem refreshFinish_baseUrl (out : OpResult) :
    (refreshFinish out).state.baseUrl = out.state.baseUrl := by
  rcases hv : out.value with _ | ⟨resp, body⟩
  · rw [refreshFinish_of_none out hv]
  · rcases hl : logAuthBody body with e | entry
    · rw [refreshFinish_of_logError out resp body e hv hl]
    · rw [refreshFinish_of_ok out resp body entry hv hl]

/-- The refresh continuation never touches the stored last response. -/
theorem refreshFinish_lastResponse (out : OpResult) :
    (refreshFinish out).state.lastResponse = out.state.lastResponse := by
  rcases hv : out.value with _ | ⟨resp, body⟩
  · rw [refreshFinish_of_none out hv]
  · rcases hl : logAuthBody body with e | entry
    · rw [refreshFinish_of_logError out resp body e hv hl]
    · rw [refreshFinish_of_ok out resp body entry hv hl]

/-- Whenever the refresh continuation changed the access token, it was
the success branch: the inner call produced a body, `logAuthBody`
succeeded, and the new token is the body's `access_token` field. -/
theorem refreshFinish_accessToken_changed (out : OpResult)
    (h : (refreshFinish out).state.accessToken ≠ out.state.accessToken) :
    ∃ resp body entry, out.value = some (resp, body) ∧
      logAuthBody body = .ok entry ∧
      (refreshFinish out).state.accessToken =
        (body.getField "access_token").getD .null := by
  rcases hv : out.value with _ | ⟨resp, body⟩
  · rw [refreshFinish_of_none out hv] at h
    exact absurd rfl h
  · rcases hl : logAuthBody body with e | entry
    · rw [refreshFinish_of_logError out resp body e hv hl] at h
      exact absurd rfl h
    · exact ⟨resp, body, entry, rfl, hl,
        by rw [refreshFinish_of_ok out resp body entry hv hl]⟩

/-- The refresh coordinator dispatches exactly one fetch call: the
token-exchange call. -/
theorem refreshAuthToken_calls (w : World) (st : FeedlyState) :
    (refreshAuthToken w st).calls =
      [⟨st.baseUrl ++ "/v3/auth/token",
        mergeInit st.accessToken (refreshInit st)⟩] := by
  rw [refreshAuthToken, refreshFinish_calls, requestCore_calls]

/-- The refresh coordinator never touches the base url. -/
theorem refreshAuthToken_baseUrl (w : World) (st : FeedlyState) :
    (refreshAuthToken w st).state.baseUrl = st.baseUrl := by
  rw [refreshAuthToken, refreshFinish_baseUrl, requestCore_baseUrl]

/-- The refresh coordinator never touches the refresh token. -/
theorem refreshAuthToken_refreshToken (w : World) (st : FeedlyState) :
    (refreshAuthToken w st).state.refreshToken = st.refreshToken := by
  rw [refreshAuthToken, refreshFinish_refreshToken, requestCore_refreshToken]

/-- The refresh coordinator always resolves with `undefined`. -/
theorem refreshAuthToken_value (w : World) (st : FeedlyState) :
    (refreshAuthToken w st).value = none := by
  rw [refreshAuthToken, refreshFinish_value]

/-- `logAuthBody` succeeds on an object carrying a string
`access_token`, and the log entry it produces is the `console.info`
entry with the redacted copy of the body. -/
theorem logAuthBody_of_str (fs : List (String × Json)) (t : String)
    (h : (fs.find? (fun p => p.1 == "access_token")).map (fun p => p.2) =
      some (.str t)) :
    logAuthBody (.obj fs) =
      .ok (.info "Refresh of tokens was successful: %o"
        (.obj (setField fs "access_token"
          (.str ("String[" ++ toString t.length ++ "]"))))) := by
  simp only [logAuthBody, h]

/-- A `getField` hit implies the receiver is an object whose field list
delivers the value, in the exact shape `logAuthBody` matches on. -/
theorem getField_some_obj (body : Json) (k : String) (v : Json)
    (h : body.getField k = some v) :
    ∃ fs, body = .obj fs ∧
      (fs.find? (fun p => p.1 == k)).map (fun p => p.2) = some v := by
  cases body with
  | obj fs => exact ⟨fs, rfl, h⟩
  | null => exact Option.noConfusion h
  | bool b => exact Option.noConfusion h
  | num n => exact Option.noConfusion h
  | str s => exact Option.noConfusion h

/-! ## Characterisation of the fetch pipeline under a known world -/

/-- When `fetch` rejects, the pipeline swallows the error: no state
change at all, one log line with the caller context prefix, no value. -/
theorem requestCore_of_networkError (w : World) (st : FeedlyState)
    (url : String) (o : RequestInit) (msg : String)
    (h : w (st.baseUrl ++ url) (mergeInit st.accessToken o) =
      .networkError msg) :
    requestCore w st url o =
      { state := st
        calls := [⟨st.baseUrl ++ url, mergeInit st.accessToken o⟩]
        log := [.error ("Failed to make call to " ++ url ++ ": " ++ msg)]
        value := none } := by
  unfold requestCore
  simp only [h]

/-- When the response arrives but its body fails to parse, the response
is already stored in `lastResponse`, the parse error is logged with the
caller context prefix, and no value is produced. -/
theorem requestCore_of_parseError (w : World) (st : FeedlyState)
    (url : String) (o : RequestInit) (resp : Response) (msg : String)
    (hw : w (st.baseUrl ++ url) (mergeInit st.accessToken o) = .ok resp)
    (hb : resp.jsonBody = .error msg) :
    requestCore w st url o =
      { state := { st with lastResponse := some resp }
        calls := [⟨st.baseUrl ++ url, mergeInit st.accessToken o⟩]
        log := [.error ("Failed to make call to " ++ url ++ ": " ++ msg)]
        value := none } := by
  unfold requestCore
  simp only [hw, hb]

/-- On a response with a parsable body, the pipeline stores the
response, logs nothing and resolves with the `{response, body}` pair. -/
theorem requestCore_of_ok (w : World) (st : FeedlyState)
    (url : String) (o : RequestInit) (resp : Response) (body : Json)
    (hw : w (st.baseUrl ++ url) (mergeInit st.accessToken o) = .ok resp)
    (hb : resp.jsonBody = .ok body) :
    requestCore w st url o =
      { state := { st with lastResponse := some resp }
        calls := [⟨st.baseUrl ++ url, mergeInit st.accessToken o⟩]
        log := []
        value := some (resp, body) } := by
  unfold requestCore
  simp only [hw, hb]

/-- With no caller-supplied `headers` key, the merged init consists of
the caller options plus the default bearer header. -/
theorem mergeInit_default (tok : Json) (o : RequestInit)
    (h : o.headers = none) :
    mergeInit tok o =
      { method := o.method
        headers := [("Authorization", "OAuth " ++ tok.jsToString)]
        body := o.body } := by
  unfold mergeInit
  rw [h]
  rfl

/-- A caller-supplied `headers` object replaces the default header
object wholesale. -/
theorem mergeInit_override (tok : Json) (o : RequestInit)
    (hs : List (String × String)) (h : o.headers = some hs) :
    mergeInit tok o = { method := o.method, headers := hs, body := o.body } := by
  unfold mergeInit
  rw [h]
  rfl

/-- The merged init of the token-exchange call: POST, an empty header
list (the explicit `headers: {}` forced the bearer header out), and
the token-exchange body. -/
theorem mergeInit_refreshInit (tok : Json) (st : FeedlyState) :
    mergeInit tok (refreshInit st) =
      { method := some "POST"
        headers := []
        body := some (.obj
          [("refresh_token", st.refreshToken),
           ("client_id", .str "feedlydev"),
           ("client_secret", .str "feedlydev"),
           ("grant_type", .str "refresh_token")]) } := rfl

/-- `rateHeaderValue` agrees with parsing the header when present and
`NaN` when absent, because `parseInt("null", 10)` is `NaN`. -/
theorem rateHeaderValue_elim (resp : Response) (k : String) :
    rateHeaderValue resp k =
      (headersGet resp.headers k).elim JsNumber.nan jsParseInt := by
  unfold rateHeaderValue
  cases headersGet resp.headers k
  · show jsParseInt "null" = JsNumber.nan
    decide
  · rfl

/-- Once a response has been recorded, the fetch pipeline never clears
it: it either keeps the state or stores a newer response. -/
theorem requestCore_lastResponse_mono (w : World) (st : FeedlyState)
    (url : String) (o : RequestInit) (h : st.lastResponse ≠ none) :
    (requestCore w st url o).state.lastResponse ≠ none := by
  rcases hw : w (st.baseUrl ++ url) (mergeInit st.accessToken o) with msg | resp
  · rw [requestCore_of_networkError _ _ _ _ _ hw]
    exact h
  · cases hb : resp.jsonBody with
    | error m =>
        rw [requestCore_of_parseError _ _ _ _ _ _ hw hb]
        exact Option.noConfusion
    | ok b =>
        rw [requestCore_of_ok _ _ _ _ _ _ hw hb]
        exact Option.noConfusion

/-- The refresh coordinator never clears a recorded response either. -/
theorem refreshAuthToken_lastResponse_mono (w : World) (st : FeedlyState)
    (h : st.lastResponse ≠ none) :
    (refreshAuthToken w st).state.lastResponse ≠ none := by
  rw [refreshAuthToken, refreshFinish_lastResponse]
  exact requestCore_lastResponse_mono w st "/v3/auth/token" (refreshInit st) h

/-- A recorded response stays recorded across any `request`. -/
theorem request_lastResponse_mono (w : World) (st : FeedlyState)
    (url : String) (o : RequestInit) (h : st.lastResponse ≠ none) :
    (request w st url o).state.lastResponse ≠ none := by
  unfold request
  by_cases hc : (!st.accessToken.truthy && url != "/v3/auth/token") = true
  · rw [if_pos hc]
    exact requestCore_lastResponse_mono w _ url o
      (refreshAuthToken_lastResponse_mono w st h)
  · rw [if_neg hc]
    exact requestCore_lastResponse_mono w st url o h

/-! ## Claim theorems -/

/-- C2 (code behaviour at the failing input): the constructor is handed
a base url carrying a trailing slash and stores it unchanged, slash
included — `baseUrl.substring(-1)` is the whole string, not its last
character, so the trim branch never fires for it.  The claim (and the
code comment at the trim site) say the trailing slash is removed. -/
theorem C2_trailing_slash_kept :
    construct { baseUrl := some "https://cloud.feedly.com/",
                refreshToken := some (.str "refresh-1") } =
      .ok { baseUrl := "https://cloud.feedly.com/"
            accessToken := .null
            refreshToken := .str "refresh-1"
            refreshTokenInstant := false
            lastResponse := none } ∧
    jsSubstring "https://cloud.feedly.com/" (-1) none =
      "https://cloud.feedly.com/" := by
  exact ⟨rfl, rfl⟩

/-- C5: construction fails synchronously with the `TypeError` exactly
when the supplied refresh token is missing or empty, and succeeds for
every non-empty refresh token string. -/
theorem C5_refreshToken_required (i : FeedlyInit) :
    ((i.refreshToken = none ∨ i.refreshToken = some (.str "")) →
      construct i = .error "TypeError: `refreshToken` is required!") ∧
    (∀ s, s ≠ "" → i.refreshToken = some (.str s) →
      ∃ st, construct i = .ok st) := by
  constructor
  · rintro (h | h)
    · simp [construct, h, Json.truthy]
    · simp [construct, h, Json.truthy,
        show ("" : String).isEmpty = true from rfl]
  · intro s hs h
    have hne : s.isEmpty = false := by
      rcases hb : s.isEmpty with _ | _
      · rfl
      · exact absurd ((String.isEmpty_iff s).mp hb) hs
    simp [construct, h, Json.truthy, hne]

/-- C6: reading `ratelimit` fails exactly when no response has ever
been recorded; with a recorded response it returns the two rate-limit
headers parsed base 10, an absent header giving `NaN`; and a recorded
response is never un-recorded by a later request. -/
theorem C6_ratelimit (st : FeedlyState) :
    ((∃ e, ratelimit st = .error e) ↔ st.lastResponse = none) ∧
    (∀ resp, st.lastResponse = some resp →
      ratelimit st = .ok
        { count := (headersGet resp.headers "X-Ratelimit-Count").elim
            JsNumber.nan jsParseInt
          reset := (headersGet resp.headers "X-Ratelimit-Reset").elim
            JsNumber.nan jsParseInt }) ∧
    (∀ resp, st.lastResponse = some resp →
      headersGet resp.headers "X-Ratelimit-Count" = none →
      ∃ r, ratelimit st = .ok r ∧ r.count = JsNumber.nan) ∧
    (∀ w url o, st.lastResponse ≠ none →
      (request w st url o).state.lastResponse ≠ none) := by
  refine ⟨?_, ?_, ?_, ?_⟩
  · constructor
    · rintro ⟨e, he⟩
      cases hl : st.lastResponse with
      | none => rfl
      | some resp => rw [ratelimit, hl] at he; exact Except.noConfusion he
    · intro hl
      exact ⟨"Cannot get rate limits: There was no response yet",
        by rw [ratelimit, hl]⟩
  · intro resp hl
    rw [ratelimit, hl]
    simp only [rateHeaderValue_elim]
  · intro resp hl hmiss
    refine ⟨_, by rw [ratelimit, hl], ?_⟩
    show rateHeaderValue resp "X-Ratelimit-Count" = JsNumber.nan
    rw [rateHeaderValue_elim, hmiss]
    rfl
  · intro w url o hne
    exact request_lastResponse_mono w st url o hne

/-- C7: the dispatched fetch overwrites `lastResponse` with the raw
response whenever one is returned — also when the body then fails to
parse — and leaves the whole state untouched when the fetch itself
rejects before a response exists. -/
theorem C7_lastResponse_overwrite (w : World) (st : FeedlyState)
    (url : String) (o : RequestInit) :
    (∀ resp, w (st.baseUrl ++ url) (mergeInit st.accessToken o) = .ok resp →
      (requestCore w st url o).state.lastResponse = some resp) ∧
    (∀ resp msg, w (st.baseUrl ++ url) (mergeInit st.accessToken o) = .ok resp →
      resp.jsonBody = .error msg →
      (requestCore w st url o).state.lastResponse = some resp ∧
      (requestCore w st url o).value = none) ∧
    (∀ msg, w (st.baseUrl ++ url) (mergeInit st.accessToken o) =
        .networkError msg →
      (requestCore w st url o).state = st) := by
  refine ⟨?_, ?_, ?_⟩
  · intro resp hw
    cases hb : resp.jsonBody with
    | error m => rw [requestCore_of_parseError _ _ _ _ _ _ hw hb]
    | ok b => rw [requestCore_of_ok _ _ _ _ _ _ hw hb]
  · intro resp msg hw hb
    rw [requestCore_of_parseError _ _ _ _ _ _ hw hb]
    exact ⟨rfl, rfl⟩
  · intro msg hw
    rw [requestCore_of_networkError _ _ _ _ _ hw]

/-- C8: every dispatched call goes against `baseUrl + url`; without a
caller `headers` key the init is the caller options plus the default
`Authorization: OAuth <accessToken>` header, and a caller `headers`
object overrides it; the refresh coordinator dispatches exactly one
POST to `/v3/auth/token` with an empty header set and the
token-exchange JSON body; and the endpoint call of any `request` is the
last dispatched call, against `baseUrl + url`. -/
theorem C8_call_construction (w : World) (st : FeedlyState)
    (url : String) (o : RequestInit) :
    (requestCore w st url o).calls =
      [⟨st.baseUrl ++ url, mergeInit st.accessToken o⟩] ∧
    (o.headers = none → mergeInit st.accessToken o =
      { method := o.method
        headers := [("Authorization", "OAuth " ++ st.accessToken.jsToString)]
        body := o.body }) ∧
    (∀ hs, o.headers = some hs →
      (mergeInit st.accessToken o).headers = hs) ∧
    (refreshAuthToken w st).calls =
      [⟨st.baseUrl ++ "/v3/auth/token",
        { method := some "POST"
          headers := []
          body := some (.obj
            [("refresh_token", st.refreshToken),
             ("client_id", .str "feedlydev"),
             ("client_secret", .str "feedlydev"),
             ("grant_type", .str "refresh_token")]) }⟩] ∧
    (∃ tok, (request w st url o).calls.getLast? =
      some ⟨st.baseUrl ++ url, mergeInit tok o⟩) := by
  refine ⟨requestCore_calls w st url o, ?_, ?_, ?_, ?_⟩
  · intro h
    exact mergeInit_default st.accessToken o h
  · intro hs h
    rw [mergeInit_override st.accessToken o hs h]
  · rw [refreshAuthToken, refreshFinish_calls, requestCore_calls,
      mergeInit_refreshInit]
  · unfold request
    by_cases hc : (!st.accessToken.truthy && url != "/v3/auth/token") = true
    · rw [if_pos hc]
      refine ⟨(refreshAuthToken w st).state.accessToken, ?_⟩
      rw [requestCore_calls, refreshAuthToken_calls,
        refreshAuthToken_baseUrl]
      rfl
    · rw [if_neg hc]
      rw [requestCore_calls]
      exact ⟨st.accessToken, rfl⟩

/-- C10: a caller-supplied `headers` object replaces the default header
object wholesale — the dispatched call has exactly the supplied
headers, and when they do not include an `Authorization` key, no
dispatched call carries one. -/
theorem C10_headers_replace_wholesale (w : World) (st : FeedlyState)
    (url : String) (o : RequestInit) (hs : List (String × String))
    (h : o.headers = some hs) :
    (requestCore w st url o).calls =
      [⟨st.baseUrl ++ url, { method := o.method, headers := hs, body := o.body }⟩] ∧
    (headersGet hs "Authorization" = none →
      ∀ c ∈ (requestCore w st url o).calls,
        headersGet c.init.headers "Authorization" = none) := by
  constructor
  · rw [requestCore_calls, mergeInit_override st.accessToken o hs h]
  · intro hauth c hc
    rw [requestCore_calls] at hc
    rcases List.mem_singleton.mp hc with rfl
    rw [mergeInit_override st.accessToken o hs h]
    exact hauth

/-! ## Success-path lemmas for the refresh coordinator -/

/-- When the token-exchange call answers with a parsable object body
whose `access_token` is the string `t`, the coordinator stores `t`. -/
theorem refreshAuthToken_success_token (w : World) (st : FeedlyState)
    (resp : Response) (body : Json) (t : String)
    (hw : w (st.baseUrl ++ "/v3/auth/token")
      (mergeInit st.accessToken (refreshInit st)) = .ok resp)
    (hb : resp.jsonBody = .ok body)
    (ht : body.getField "access_token" = some (.str t)) :
    (refreshAuthToken w st).state.accessToken = .str t := by
  obtain ⟨fs, rfl, hfind⟩ := getField_some_obj body "access_token" (.str t) ht
  have hcore := requestCore_of_ok w st "/v3/auth/token" (refreshInit st)
    resp (.obj fs) hw hb
  have hlog := logAuthBody_of_str fs t hfind
  rw [refreshAuthToken,
    refreshFinish_of_ok _ resp (.obj fs) _ (by rw [hcore]) hlog]
  show ((Json.obj fs).getField "access_token").getD .null = .str t
  rw [ht]
  rfl

/-- On the same success path, the coordinator emits exactly the
`console.info` entry with the redacted body copy: `access_token`
replaced by the `String[<length>]` placeholder. -/
theorem refreshAuthToken_success_log (w : World) (st : FeedlyState)
    (resp : Response) (fs : List (String × Json)) (t : String)
    (hw : w (st.baseUrl ++ "/v3/auth/token")
      (mergeInit st.accessToken (refreshInit st)) = .ok resp)
    (hb : resp.jsonBody = .ok (.obj fs))
    (hfind : (fs.find? (fun p => p.1 == "access_token")).map (fun p => p.2) =
      some (.str t)) :
    (refreshAuthToken w st).log =
      [.info "Refresh of tokens was successful: %o"
        (.obj (setField fs "access_token"
          (.str ("String[" ++ toString t.length ++ "]"))))] := by
  have hcore := requestCore_of_ok w st "/v3/auth/token" (refreshInit st)
    resp (.obj fs) hw hb
  have hlog := logAuthBody_of_str fs t hfind
  rw [refreshAuthToken,
    refreshFinish_of_ok _ resp (.obj fs) _ (by rw [hcore]) hlog]
  show (requestCore w st "/v3/auth/token" (refreshInit st)).log ++ _ = _
  rw [hcore]
  rfl

/-- `logAuthBody` only ever succeeds with a `console.info` entry. -/
theorem logAuthBody_ok_info (body : Json) (entry : LogEntry)
    (h : logAuthBody body = .ok entry) :
    ∃ fmt arg, entry = .info fmt arg := by
  cases body with
  | null => exact Except.noConfusion h
  | bool b => exact Except.noConfusion h
  | num n => exact Except.noConfusion h
  | str s => exact Except.noConfusion h
  | obj fs =>
      simp only [logAuthBody] at h
      cases hf : (fs.find? (fun p => p.1 == "access_token")).map
          (fun p => p.2) with
      | none => rw [hf] at h; exact Except.noConfusion h
      | some v =>
          rw [hf] at h
          cases v with
          | null => exact Except.noConfusion h
          | bool b => injection h with h1; exact ⟨_, _, h1.symm⟩
          | num n => injection h with h1; exact ⟨_, _, h1.symm⟩
          | str s => injection h with h1; exact ⟨_, _, h1.symm⟩
          | obj gs => injection h with h1; exact ⟨_, _, h1.symm⟩

/-- A successful field lookup means some list entry satisfies the key
predicate. -/
theorem any_of_find?_map (fs : List (String × Json)) (k : String) (v : Json)
    (h : (fs.find? (fun p => p.1 == k)).map (fun p => p.2) = some v) :
    fs.any (fun p => p.1 == k) = true := by
  cases hf : fs.find? (fun p => p.1 == k) with
  | none => rw [hf] at h; exact Option.noConfusion h
  | some p =>
      have hpred :=
        List.find?_some (p := fun (q : String × Json) => q.1 == k) hf
      exact List.any_eq_true.mpr
        ⟨p, List.mem_of_find?_eq_some hf, hpred⟩

/-- A field list mentions `t` nowhere when no key and no value does. -/
theorem mentionsFields_false_of_all (t : String)
    (fs : List (String × Json))
    (h : ∀ p ∈ fs, strOccurs t p.1 = false ∧ Json.mentions t p.2 = false) :
    Json.mentionsFields t fs = false := by
  induction fs with
  | nil => rfl
  | cons p rest ih =>
      obtain ⟨h1, h2⟩ := h p (List.mem_cons_self p rest)
      have hr := ih (fun q hq => h q (List.mem_cons_of_mem p hq))
      rcases p with ⟨k, v⟩
      show (strOccurs t k || Json.mentions t v ||
        Json.mentionsFields t rest) = false
      rw [h1, h2, hr]
      rfl

/-- Redacting the `access_token` field of a body removes every mention
of `t`, provided `t` occurs in no key, in no other field value, and not
in the placeholder itself. -/
theorem mentions_setField_false (t : String) (fs : List (String × Json))
    (ph : Json)
    (hany : fs.any (fun p => p.1 == "access_token") = true)
    (hfs : ∀ p ∈ fs, strOccurs t p.1 = false ∧
      (p.1 = "access_token" ∨ Json.mentions t p.2 = false))
    (hph : Json.mentions t ph = false) :
    Json.mentionsFields t (setField fs "access_token" ph) = false := by
  unfold setField
  rw [if_pos hany]
  apply mentionsFields_false_of_all
  intro q hq
  obtain ⟨p, hp, hmap⟩ := List.mem_map.mp hq
  by_cases hk : (p.1 == "access_token") = true
  · rw [if_pos hk] at hmap
    rcases hmap.symm with rfl
    exact ⟨(hfs p hp).1, hph⟩
  · rw [if_neg hk] at hmap
    rcases hmap.symm with rfl
    rcases (hfs q hp).2 with heq | hm
    · exact absurd (beq_iff_eq.mpr heq) hk
    · exact ⟨(hfs q hp).1, hm⟩

/-! ## Frame lemmas for `request` -/

/-- `request` never touches the refresh token. -/
theorem request_refreshToken (w : World) (st : FeedlyState) (url : String)
    (o : RequestInit) :
    (request w st url o).state.refreshToken = st.refreshToken := by
  unfold request
  by_cases hc : (!st.accessToken.truthy && url != "/v3/auth/token") = true
  · rw [if_pos hc]
    show (requestCore w (refreshAuthToken w st).state url o).state.refreshToken = _
    rw [requestCore_refreshToken, refreshAuthToken_refreshToken]
  · rw [if_neg hc]
    exact requestCore_refreshToken w st url o

/-- `request` never touches the base url. -/
theorem request_baseUrl (w : World) (st : FeedlyState) (url : String)
    (o : RequestInit) :
    (request w st url o).state.baseUrl = st.baseUrl := by
  unfold request
  by_cases hc : (!st.accessToken.truthy && url != "/v3/auth/token") = true
  · rw [if_pos hc]
    show (requestCore w (refreshAuthToken w st).state url o).state.baseUrl = _
    rw [requestCore_baseUrl, refreshAuthToken_baseUrl]
  · rw [if_neg hc]
    exact requestCore_baseUrl w st url o

/-- A changed access token after a refresh singles out the success
branch of the coordinator. -/
theorem refreshAuthToken_accessToken_changed (w : World) (st : FeedlyState)
    (h : (refreshAuthToken w st).state.accessToken ≠ st.accessToken) :
    ∃ resp body entry,
      (requestCore w st "/v3/auth/token" (refreshInit st)).value =
        some (resp, body) ∧
      logAuthBody body = .ok entry ∧
      (refreshAuthToken w st).state.accessToken =
        (body.getField "access_token").getD .null := by
  have h2 : (refreshFinish
      (requestCore w st "/v3/auth/token" (refreshInit st))).state.accessToken ≠
      (requestCore w st "/v3/auth/token" (refreshInit st)).state.accessToken := by
    rw [requestCore_accessToken]
    exact h
  exact refreshFinish_accessToken_changed _ h2

/-- With no (falsy) access token and a non-token url, `request`
dispatches exactly the refresh fetch followed by the endpoint fetch,
the latter built from the refreshed state. -/
theorem request_falsy_calls (w : World) (st : FeedlyState) (url : String)
    (o : RequestInit) (h : st.accessToken.truthy = false)
    (hurl : url ≠ "/v3/auth/token") :
    (request w st url o).calls =
      [⟨st.baseUrl ++ "/v3/auth/token", mergeInit st.accessToken (refreshInit st)⟩,
       ⟨st.baseUrl ++ url, mergeInit (refreshAuthToken w st).state.accessToken o⟩] := by
  have hc : (!st.accessToken.truthy && url != "/v3/auth/token") = true := by
    rw [h]
    simp [hurl]
  unfold request
  rw [if_pos hc]
  show (refreshAuthToken w st).calls ++
    (requestCore w (refreshAuthToken w st).state url o).calls = _
  rw [refreshAuthToken_calls, requestCore_calls, refreshAuthToken_baseUrl]
  rfl

/-- C1: a client with no access token awaits exactly one full refresh
cycle before the endpoint fetch is dispatched (exactly two fetches, the
token exchange first), and when the refresh response carries
`access_token` `t`, the endpoint fetch carries `Authorization: OAuth t`;
a client holding a (truthy) access token dispatches without any
refresh; a request for the token-exchange path itself never triggers a
refresh. -/
theorem C1_refresh_precondition (w : World) (st : FeedlyState)
    (url : String) (o : RequestInit) :
    (st.accessToken.truthy = false → url ≠ "/v3/auth/token" →
      (request w st url o).calls =
        [⟨st.baseUrl ++ "/v3/auth/token", mergeInit st.accessToken (refreshInit st)⟩,
         ⟨st.baseUrl ++ url, mergeInit (refreshAuthToken w st).state.accessToken o⟩]) ∧
    (st.accessToken.truthy = false → url ≠ "/v3/auth/token" →
      ∀ resp body t,
        w (st.baseUrl ++ "/v3/auth/token")
          (mergeInit st.accessToken (refreshInit st)) = .ok resp →
        resp.jsonBody = .ok body →
        body.getField "access_token" = some (.str t) →
        o.headers = none →
        (refreshAuthToken w st).state.accessToken = .str t ∧
        (request w st url o).calls =
          [⟨st.baseUrl ++ "/v3/auth/token", mergeInit st.accessToken (refreshInit st)⟩,
           ⟨st.baseUrl ++ url,
             { method := o.method
               headers := [("Authorization", "OAuth " ++ t)]
               body := o.body }⟩]) ∧
    (st.accessToken.truthy = true →
      request w st url o = requestCore w st url o) ∧
    (request w st "/v3/auth/token" o = requestCore w st "/v3/auth/token" o) := by
  refine ⟨request_falsy_calls w st url o, ?_,
    request_of_truthy w st url o, request_on_token_url w st o⟩
  intro h hurl resp body t hw hb ht hho
  have htok := refreshAuthToken_success_token w st resp body t hw hb ht
  refine ⟨htok, ?_⟩
  rw [request_falsy_calls w st url o h hurl, htok, mergeInit_default _ o hho]
  rfl

/-- C3: a network failure or a non-JSON body inside `request` is caught
at the request boundary, logged once with the `Failed to make call to`
prefix, and swallowed (the call resolves with no value);
`refreshAuthToken` always resolves with no value; and whenever the
refresh boundary logged a failure, the stored access token is exactly
what it was before the call. -/
theorem C3_errors_swallowed (w : World) (st : FeedlyState) (url : String)
    (o : RequestInit) :
    (∀ msg, w (st.baseUrl ++ url) (mergeInit st.accessToken o) =
        .networkError msg →
      (requestCore w st url o).value = none ∧
      (requestCore w st url o).log =
        [.error ("Failed to make call to " ++ url ++ ": " ++ msg)]) ∧
    (∀ resp msg, w (st.baseUrl ++ url) (mergeInit st.accessToken o) = .ok resp →
      resp.jsonBody = .error msg →
      (requestCore w st url o).value = none ∧
      (requestCore w st url o).log =
        [.error ("Failed to make call to " ++ url ++ ": " ++ msg)]) ∧
    (refreshAuthToken w st).value = none ∧
    ((refreshAuthToken w st).log.any isRefreshFailureLog = true →
      (refreshAuthToken w st).state.accessToken = st.accessToken) := by
  refine ⟨?_, ?_, refreshAuthToken_value w st, ?_⟩
  · intro msg hw
    rw [requestCore_of_networkError _ _ _ _ _ hw]
    exact ⟨rfl, rfl⟩
  · intro resp msg hw hb
    rw [requestCore_of_parseError _ _ _ _ _ _ hw hb]
    exact ⟨rfl, rfl⟩
  · intro hany
    by_contra hne
    obtain ⟨resp, body, entry, hv, hl, _⟩ :=
      refreshAuthToken_accessToken_changed w st hne
    have hol := requestCore_log_of_value w st "/v3/auth/token"
      (refreshInit st) resp body hv
    have hlog : (refreshAuthToken w st).log = [entry] := by
      rw [refreshAuthToken, refreshFinish_of_ok _ resp body entry hv hl]
      show (requestCore w st "/v3/auth/token" (refreshInit st)).log ++
        [entry] = [entry]
      rw [hol]
      rfl
    obtain ⟨fmt, arg, rfl⟩ := logAuthBody_ok_info body entry hl
    rw [hlog] at hany
    simp [isRefreshFailureLog] at hany

/-- C4: a refresh response whose body carries `access_token` `t` makes
the client store `t`, so every subsequent request (under any network)
carries `Authorization: OAuth t`; the refresh emits exactly one info
log entry holding the body copy with `t` replaced by the placeholder
`String[<length of t>]`; and when `t` occurs in no other field, no key,
not in the placeholder and not in the format string, nothing in the
refresh log mentions `t`. -/
theorem C4_token_stored_and_redacted (w : World) (st : FeedlyState)
    (resp : Response) (fs : List (String × Json)) (t : String)
    (hw : w (st.baseUrl ++ "/v3/auth/token")
      (mergeInit st.accessToken (refreshInit st)) = .ok resp)
    (hb : resp.jsonBody = .ok (.obj fs))
    (hfind : (fs.find? (fun p => p.1 == "access_token")).map (fun p => p.2) =
      some (.str t)) :
    (refreshAuthToken w st).state.accessToken = .str t ∧
    (t ≠ "" → ∀ w2 url o, o.headers = none →
      (request w2 (refreshAuthToken w st).state url o).calls.map
          (fun c => headersGet c.init.headers "Authorization") =
        [some ("OAuth " ++ t)]) ∧
    (refreshAuthToken w st).log =
      [.info "Refresh of tokens was successful: %o"
        (.obj (setField fs "access_token"
          (.str ("String[" ++ toString t.length ++ "]"))))] ∧
    ((∀ p ∈ fs, strOccurs t p.1 = false ∧
        (p.1 = "access_token" ∨ Json.mentions t p.2 = false)) →
      strOccurs t ("String[" ++ toString t.length ++ "]") = false →
      strOccurs t "Refresh of tokens was successful: %o" = false →
      ∀ e ∈ (refreshAuthToken w st).log, logEntryMentions t e = false) := by
  have ht : (Json.obj fs).getField "access_token" = some (.str t) := hfind
  have htok := refreshAuthToken_success_token w st resp (.obj fs) t hw hb ht
  have hlog := refreshAuthToken_success_log w st resp fs t hw hb hfind
  refine ⟨htok, ?_, hlog, ?_⟩
  · intro hnt w2 url o hho
    have hemp : t.isEmpty = false := by
      rcases he : t.isEmpty with _ | _
      · rfl
      · exact absurd ((String.isEmpty_iff t).mp he) hnt
    have htr : (refreshAuthToken w st).state.accessToken.truthy = true := by
      rw [htok]
      show (!t.isEmpty) = true
      rw [hemp]
      rfl
    rw [request_of_truthy w2 _ url o htr, requestCore_calls, htok,
      mergeInit_default _ o hho]
    rfl
  · intro hfs hph hfmt e he
    rw [hlog] at he
    rcases List.mem_singleton.mp he with rfl
    show (strOccurs t "Refresh of tokens was successful: %o" ||
      Json.mentions t (.obj (setField fs "access_token"
        (.str ("String[" ++ toString t.length ++ "]"))))) = false
    rw [hfmt]
    have hany := any_of_find?_map fs "access_token" (.str t) hfind
    have hm := mentions_setField_false t fs
      (.str ("String[" ++ toString t.length ++ "]")) hany hfs hph
    show (false || Json.mentionsFields t (setField fs "access_token"
      (.str ("String[" ++ toString t.length ++ "]")))) = false
    rw [hm]
    rfl

/-- C9: after construction the refresh token and base url are never
mutated by any operation; the fetch pipeline itself never mutates the
access token; and when a `request` changed the access token, the
change was made by the (successful) refresh coordinator it awaited:
the client held no token, the url was not the token path, and the new
token is the refresh body's `access_token`. -/
theorem C9_session_ownership (w : World) (st : FeedlyState) (url : String)
    (o : RequestInit) :
    (requestCore w st url o).state.accessToken = st.accessToken ∧
    (request w st url o).state.refreshToken = st.refreshToken ∧
    (request w st url o).state.baseUrl = st.baseUrl ∧
    (refreshAuthToken w st).state.refreshToken = st.refreshToken ∧
    (refreshAuthToken w st).state.baseUrl = st.baseUrl ∧
    ((request w st url o).state.accessToken ≠ st.accessToken →
      st.accessToken.truthy = false ∧ url ≠ "/v3/auth/token" ∧
      (request w st url o).state.accessToken =
        (refreshAuthToken w st).state.accessToken ∧
      ∃ resp body entry,
        (requestCore w st "/v3/auth/token" (refreshInit st)).value =
          some (resp, body) ∧
        logAuthBody body = .ok entry ∧
        (refreshAuthToken w st).state.accessToken =
          (body.getField "access_token").getD .null) ∧
    (profile w st).state.refreshToken = st.refreshToken ∧
    (collections w st).state.refreshToken = st.refreshToken ∧
    (subscriptions w st).state.refreshToken = st.refreshToken ∧
    (∀ sid qopts, (streams w st sid qopts).state.refreshToken =
      st.refreshToken) := by
  refine ⟨requestCore_accessToken w st url o,
    request_refreshToken w st url o, request_baseUrl w st url o,
    refreshAuthToken_refreshToken w st, refreshAuthToken_baseUrl w st,
    ?_, ?_, ?_, ?_, ?_⟩
  · intro hne
    by_cases hc : (!st.accessToken.truthy && url != "/v3/auth/token") = true
    · have h1 : st.accessToken.truthy = false := by
        rcases hcc : st.accessToken.truthy with _ | _
        · rfl
        · rw [hcc] at hc
          simp at hc
      have h2 : url ≠ "/v3/auth/token" := by
        intro he
        rw [he] at hc
        simp at hc
      have hreq : (request w st url o).state.accessToken =
          (refreshAuthToken w st).state.accessToken := by
        unfold request
        rw [if_pos hc]
        show (requestCore w (refreshAuthToken w st).state url o).state.accessToken = _
        exact requestCore_accessToken w _ url o
      have hch : (refreshAuthToken w st).state.accessToken ≠
          st.accessToken := by
        rw [← hreq]
        exact hne
      exact ⟨h1, h2, hreq, refreshAuthToken_accessToken_changed w st hch⟩
    · exfalso
      apply hne
      unfold request
      rw [if_neg hc]
      exact requestCore_accessToken w st url o
  · show (request w st "/v3/profile" {}).state.refreshToken = _
    exact request_refreshToken w st "/v3/profile" {}
  · show (request w st "/v3/collections" {}).state.refreshToken = _
    exact request_refreshToken w st "/v3/collections" {}
  · show (request w st "/v3/subscriptions" {}).state.refreshToken = _
    exact request_refreshToken w st "/v3/subscriptions" {}
  · intro sid qopts
    exact request_refreshToken w st _ {}

/-! ## Witnesses: the claim theorems evaluated at concrete inputs -/

/-- C1 at a concrete client and network: the fresh client dispatches the
token exchange and then the profile call bearing `OAuth abc123`, while a
client already holding a token dispatches without refreshing. -/
theorem C1_refresh_precondition_witness :
    ((refreshAuthToken exampleWorld exampleState).state.accessToken =
      .str "abc123" ∧
    (request exampleWorld exampleState "/v3/profile" {}).calls =
      [⟨exampleState.baseUrl ++ "/v3/auth/token",
        mergeInit exampleState.accessToken (refreshInit exampleState)⟩,
       ⟨exampleState.baseUrl ++ "/v3/profile",
         { method := ({} : RequestInit).method
           headers := [("Authorization", "OAuth " ++ "abc123")]
           body := ({} : RequestInit).body }⟩]) ∧
    request exampleWorld tokenState "/v3/profile" {} =
      requestCore exampleWorld tokenState "/v3/profile" {} :=
  ⟨(C1_refresh_precondition exampleWorld exampleState "/v3/profile" {}).2.1
      rfl (by decide) exampleTokenResponse exampleAuthBody "abc123"
      rfl rfl rfl rfl,
   (C1_refresh_precondition exampleWorld tokenState "/v3/profile" {}).2.2.1 rfl⟩

/-- C3 at a failing network: the profile call resolves with no value
and one prefixed error line; the refresh resolves with no value and
leaves the access token untouched. -/
theorem C3_errors_swallowed_witness :
    ((requestCore failingWorld exampleState "/v3/profile" {}).value = none ∧
     (requestCore failingWorld exampleState "/v3/profile" {}).log =
       [.error ("Failed to make call to " ++ "/v3/profile" ++ ": " ++
         "FetchError: network down")]) ∧
    (refreshAuthToken failingWorld exampleState).value = none ∧
    (refreshAuthToken failingWorld exampleState).state.accessToken =
      exampleState.accessToken := by
  have h := C3_errors_swallowed failingWorld exampleState "/v3/profile" {}
  exact ⟨h.1 "FetchError: network down" rfl, h.2.2.1, h.2.2.2 (by rfl)⟩

/-- C4 at the worked example: after a refresh answering
`access_token: "abc123"`, the token is stored, the next call carries
`OAuth abc123`, the info log holds the body with the `String[6]`
placeholder, and that entry mentions `abc123` nowhere. -/
theorem C4_token_stored_and_redacted_witness :
    (refreshAuthToken exampleWorld exampleState).state.accessToken =
      .str "abc123" ∧
    (request exampleWorld (refreshAuthToken exampleWorld exampleState).state
        "/v3/profile" {}).calls.map
        (fun c => headersGet c.init.headers "Authorization") =
      [some ("OAuth " ++ "abc123")] ∧
    (refreshAuthToken exampleWorld exampleState).log =
      [.info "Refresh of tokens was successful: %o"
        (.obj (setField
          [("access_token", .str "abc123"), ("expires_in", .num 3600)]
          "access_token"
          (.str ("String[" ++ toString ("abc123".length) ++ "]"))))] ∧
    logEntryMentions "abc123"
      (.info "Refresh of tokens was successful: %o"
        (.obj (setField
          [("access_token", .str "abc123"), ("expires_in", .num 3600)]
          "access_token"
          (.str ("String[" ++ toString ("abc123".length) ++ "]"))))) =
      false := by
  have h := C4_token_stored_and_redacted exampleWorld exampleState
    exampleTokenResponse
    [("access_token", .str "abc123"), ("expires_in", .num 3600)]
    "abc123" rfl rfl rfl
  refine ⟨h.1, h.2.1 (by decide) exampleWorld "/v3/profile" {} rfl,
    h.2.2.1, ?_⟩
  apply h.2.2.2 (by decide) (by decide) (by decide)
  rw [h.2.2.1]
  exact List.mem_singleton.mpr rfl

/-- C5 at concrete options: missing refresh token throws the
`TypeError`, a non-empty one constructs successfully. -/
theorem C5_refreshToken_required_witness :
    construct {} = .error "TypeError: `refreshToken` is required!" ∧
    (construct { refreshToken := some (.str "refresh-1") }).isOk = true := by
  constructor
  · exact (C5_refreshToken_required {}).1 (Or.inl rfl)
  · obtain ⟨st, hst⟩ :=
      (C5_refreshToken_required { refreshToken := some (.str "refresh-1") }).2
        "refresh-1" (by decide) rfl
    rw [hst]
    rfl

/-- C6 at concrete states: reading `ratelimit` before any response
fails; with the recorded example response it yields
`{count := 200, reset := 1700000000}`; and a recorded response survives
a further request. -/
theorem C6_ratelimit_witness :
    (∃ e, ratelimit exampleState = .error e) ∧
    ratelimit { exampleState with
        lastResponse := some exampleProfileResponse } =
      .ok { count := .int 200, reset := .int 1700000000 } ∧
    (request exampleWorld
        { exampleState with lastResponse := some exampleProfileResponse }
        "/v3/profile" {}).state.lastResponse ≠ none :=
  ⟨(C6_ratelimit exampleState).1.mpr rfl,
   (C6_ratelimit { exampleState with
      lastResponse := some exampleProfileResponse }).2.1
     exampleProfileResponse rfl,
   (C6_ratelimit { exampleState with
      lastResponse := some exampleProfileResponse }).2.2.2
     exampleWorld "/v3/profile" {} (Option.some_ne_none _)⟩

/-- C7 at concrete networks: a returned response is stored even when
its body fails to parse, and a rejected fetch leaves the state
untouched. -/
theorem C7_lastResponse_overwrite_witness :
    (requestCore exampleWorld exampleState "/v3/profile" {}).state.lastResponse =
      some exampleProfileResponse ∧
    ((requestCore badJsonWorld exampleState "/v3/profile" {}).state.lastResponse =
      some { headers := [], jsonBody := .error "SyntaxError: Unexpected token" } ∧
     (requestCore badJsonWorld exampleState "/v3/profile" {}).value = none) ∧
    (requestCore failingWorld exampleState "/v3/profile" {}).state =
      exampleState :=
  ⟨(C7_lastResponse_overwrite exampleWorld exampleState "/v3/profile" {}).1
      exampleProfileResponse rfl,
   (C7_lastResponse_overwrite badJsonWorld exampleState "/v3/profile" {}).2.1
      { headers := [], jsonBody := .error "SyntaxError: Unexpected token" }
      "SyntaxError: Unexpected token" rfl rfl,
   (C7_lastResponse_overwrite failingWorld exampleState "/v3/profile" {}).2.2
      "FetchError: network down" rfl⟩

/-- C8 at concrete inputs: the profile call goes against
`baseUrl + path` with the default bearer header; supplied headers
replace the default; and the refresh dispatches the POST with empty
headers and the token-exchange body. -/
theorem C8_call_construction_witness :
    (requestCore exampleWorld exampleState "/v3/profile" {}).calls =
      [⟨exampleState.baseUrl ++ "/v3/profile",
        mergeInit exampleState.accessToken {}⟩] ∧
    mergeInit exampleState.accessToken {} =
      { method := ({} : RequestInit).method
        headers := [("Authorization",
          "OAuth " ++ exampleState.accessToken.jsToString)]
        body := ({} : RequestInit).body } ∧
    (mergeInit exampleState.accessToken exampleOverrideInit).headers =
      [("Content-Type", "application/json")] ∧
    (refreshAuthToken exampleWorld exampleState).calls =
      [⟨exampleState.baseUrl ++ "/v3/auth/token",
        { method := some "POST"
          headers := []
          body := some (.obj
            [("refresh_token", exampleState.refreshToken),
             ("client_id", .str "feedlydev"),
             ("client_secret", .str "feedlydev"),
             ("grant_type", .str "refresh_token")]) }⟩] := by
  have h := C8_call_construction exampleWorld exampleState "/v3/profile" {}
  have h2 := C8_call_construction exampleWorld exampleState "/v3/profile"
    exampleOverrideInit
  exact ⟨h.1, h.2.1 rfl,
    h2.2.2.1 [("Content-Type", "application/json")] rfl, h.2.2.2.1⟩

/-- C9 at the worked example: the pipeline alone never changes the
access token, the refresh token survives the request, and the token
change produced by the fresh-client request is exactly the refreshed
token. -/
theorem C9_session_ownership_witness :
    (requestCore exampleWorld exampleState "/v3/profile" {}).state.accessToken =
      exampleState.accessToken ∧
    (request exampleWorld exampleState "/v3/profile" {}).state.refreshToken =
      exampleState.refreshToken ∧
    exampleState.accessToken.truthy = false ∧
    (request exampleWorld exampleState "/v3/profile" {}).state.accessToken =
      (refreshAuthToken exampleWorld exampleState).state.accessToken := by
  have h := C9_session_ownership exampleWorld exampleState "/v3/profile" {}
  have himp := h.2.2.2.2.2.1 (by intro hc; exact Json.noConfusion hc)
  exact ⟨h.1, h.2.1, himp.1, himp.2.2.1⟩

/-- C10 at concrete options: a caller `headers` object unrelated to
authorisation replaces the default wholesale, so the dispatched call
has no `Authorization` header. -/
theorem C10_headers_replace_wholesale_witness :
    (requestCore exampleWorld exampleState "/v3/profile"
        exampleOverrideInit).calls =
      [⟨exampleState.baseUrl ++ "/v3/profile",
        { method := exampleOverrideInit.method
          headers := [("Content-Type", "application/json")]
          body := exampleOverrideInit.body }⟩] ∧
    headersGet
      (FetchCall.mk (exampleState.baseUrl ++ "/v3/profile")
        { method := exampleOverrideInit.method
          headers := [("Content-Type", "application/json")]
          body := exampleOverrideInit.body }).init.headers
      "Authorization" = none := by
  have h := C10_headers_replace_wholesale exampleWorld exampleState
    "/v3/profile" exampleOverrideInit [("Content-Type", "application/json")] rfl
  refine ⟨h.1, ?_⟩
  apply h.2 rfl
  rw [h.1]
  exact List.mem_singleton.mpr rfl

end FeedlyClient
